import Mathlib

/-
Verification of the django-markitup widget adapter (src/markitup/widgets.py)
against its natural-language specification.

Shallow embedding conventions:
  - A Python dict of HTML attributes is modelled as an association list
    (`Attrs`) queried by first match (`lookup`); `dict.update` is modelled by
    prepending the overriding entries (`dictUpdate`), which gives them
    precedence.  Only the induced key-to-value mapping is meaningful to the
    program; dict iteration order is not observed by any claim.
  - The host framework (Django) pieces the adapter calls into are modelled as
    explicit, concrete collaborators: the old- and new-style
    `Widget.build_attrs`, the `Textarea` base rendering and its constructor
    defaults, the admin textarea constructor, and URL reversal (a
    `routes : Option String` parameter; `Option.none` models `NoReverseMatch`).
  - The process-wide settings module is a `Settings` record passed explicitly.
  - Fallible rendering returns `Except RenderError Html`; `Html.safe` models
    `mark_safe`.
  - Whether the host framework uses the new-style `build_attrs` signature
    (`new_style_build_attrs` in the source, detected at import time) is an
    explicit `newStyle : Bool` parameter, and the two conditionally bound
    method variants are two definitions (`..._new_style` / `..._old_style`).
-/

/-- HTML attribute mapping: a Python dict modelled as an association list
queried by first match. -/
abbrev Attrs := List (String × String)

/-- Python `d[key]` / `d.get(key)`: the first binding of `key`, if any. -/
def lookup : Attrs → String → Option String
  | [], _ => Option.none
  | (k, v) :: rest, key => if k = key then some v else lookup rest key

/-- Python `dict.update` at the mapping level: a copy of `a` updated with the
entries of `b`, realised by prepending `b` so its bindings take precedence. -/
def dictUpdate (a b : Attrs) : Attrs := b ++ a

theorem lookup_append (a b : Attrs) (k : String) :
    lookup (a ++ b) k =
      match lookup a k with
      | some v => some v
      | Option.none => lookup b k := by
  induction a with
  | nil => rfl
  | cons p rest ih =>
      cases p with
      | mk k0 v0 =>
          by_cases h : k0 = k
          · simp [lookup, h]
          · simp [lookup, h, ih]

theorem lookup_dictUpdate (a b : Attrs) (k : String) :
    lookup (dictUpdate a b) k =
      match lookup b k with
      | some v => some v
      | Option.none => lookup a k := by
  simpa [dictUpdate] using lookup_append b a k

/-- The process-wide settings the adapter reads (markitup.settings and
STATIC_URL).  Claims quantify over this record. -/
structure Settings where
  STATIC_URL : String
  MARKITUP_SET : String
  MARKITUP_SKIN : String
  MARKITUP_AUTO_PREVIEW : Bool
  JQUERY_URL : Option String
deriving DecidableEq

/-- String prefix test (on the underlying character lists, so that it
evaluates by structural reduction). -/
def strStartsWith (s pre : String) : Bool := pre.data.isPrefixOf s.data

/-- String suffix test (on the underlying character lists, so that it
evaluates by structural reduction). -/
def strEndsWith (s suf : String) : Bool := suf.data.isSuffixOf s.data

/-- Python `posixpath.join` on two components, as used by the source. -/
def posixJoin (a b : String) : String :=
  if strStartsWith b "/" then b
  else if a = "" || strEndsWith a "/" then a ++ b
  else a ++ "/" ++ b

/-- Modelled from the spec: `markitup.util.absolute_url` is not under src/.
Per the spec a configured path is a URL path absolute or relative to
STATIC_URL, so an absolute path (scheme or leading slash) is returned
unchanged and a relative path is joined under the static prefix. -/
def absolute_url (S : Settings) (path : String) : String :=
  if strStartsWith path "http://" || strStartsWith path "https://" || strStartsWith path "/" then path
  else posixJoin S.STATIC_URL path

/-- Python `x or default` for an optional string argument: `None` and the
empty string are falsy and fall back to the default. -/
def pyOrStr (v : Option String) (d : String) : String :=
  match v with
  | some s => if s = "" then d else s
  | Option.none => d

/-- A field value as seen by the widgets: Python `None`, a plain string, or a
markup wrapper object exposing a `raw` attribute (raw source text) whose
default string form is its rendered text. -/
inductive Value
  | none : Value
  | plain : String → Value
  | markup : String → String → Value
deriving DecidableEq

/-- Attribute access `value.raw` under `try`/`except AttributeError`:
`some` is a successful access, `Option.none` is `AttributeError`. -/
def Value.rawAttr : Value → Option String
  | Value.markup r _ => some r
  | _ => Option.none

/-- Coercion of a value to the text rendered inside a textarea: `None`
renders empty, a markup wrapper renders via its default string form. -/
def valueText : Value → String
  | Value.none => ""
  | Value.plain s => s
  | Value.markup _ rendered => rendered

/-- A rendered fragment; `safe` models Django's mark_safe flag. -/
structure Html where
  content : String
  safe : Bool
deriving DecidableEq

/-- Model of the host framework's attribute serialisation (an external
collaborator): an opaque but concrete encoding of the attribute list. -/
def flatatt (attrs : Attrs) : String :=
  attrs.foldl (fun acc p => acc ++ " " ++ p.1 ++ "=\"" ++ p.2 ++ "\"") ""

/-- The attribute mapping the host framework's text-area rendering uses: the
widget's own attrs merged with the per-render attrs, plus the field name. -/
def mergedTextareaAttrs (widgetAttrs : Attrs) (name : String) (attrs : Option Attrs) : Attrs :=
  dictUpdate (dictUpdate widgetAttrs (attrs.getD [])) [("name", name)]

/-- Model of the host framework's text-area base rendering (an external
collaborator, treated as opaque by the spec): a function of the merged
attribute mapping, the field name and the value text, returned pre-escaped. -/
def textareaRender (widgetAttrs : Attrs) (name : String) (value : Value) (attrs : Option Attrs) : Html :=
  { content := "<textarea" ++ flatatt (mergedTextareaAttrs widgetAttrs name attrs)
        ++ ">" ++ valueText value ++ "</textarea>"
  , safe := true }

/-- Model of the host framework's `Textarea.__init__` (external collaborator):
default attrs cols=40, rows=10, updated with the supplied attrs when these are
truthy (a non-empty dict). -/
def textareaDefaultAttrs : Attrs := [("cols", "40"), ("rows", "10")]

def textareaInitAttrs (attrs : Option Attrs) : Attrs :=
  match attrs with
  | some a => if a = [] then textareaDefaultAttrs else dictUpdate textareaDefaultAttrs a
  | Option.none => textareaDefaultAttrs

/-- Model of the host framework's admin text-area constructor (external
collaborator): injects the styling attribute class=vLargeTextField under the
supplied attrs before delegating to the text-area constructor. -/
def adminTextareaInitAttrs (attrs : Option Attrs) : Attrs :=
  dictUpdate [("class", "vLargeTextField")] (attrs.getD [])

/-- Model of the new-style (Django 1.11+) `Widget.build_attrs` that
`BuildAttrsCompat` delegates to when `new_style_build_attrs` is true
(external collaborator): a copy of the base attrs updated with the extra
attrs when these are given. -/
def djangoNewBuildAttrs (base_attrs : Attrs) (extra_attrs : Option Attrs) : Attrs :=
  match extra_attrs with
  | some e => dictUpdate base_attrs e
  | Option.none => base_attrs

/-- Model of the old-style (Django before 1.11) `Widget.build_attrs` that
`BuildAttrsCompat` delegates to when `new_style_build_attrs` is false
(external collaborator): a copy of the widget's own attrs updated with the
keyword arguments, then with the extra attrs when these are truthy. -/
def djangoOldBuildAttrs (selfAttrs : Attrs) (extra_attrs : Option Attrs) (kwargs : Attrs) : Attrs :=
  let attrs := dictUpdate selfAttrs kwargs
  match extra_attrs with
  | some e => if e = [] then attrs else dictUpdate attrs e
  | Option.none => attrs

/-- `BuildAttrsCompat.build_attrs_extra`: the default attribute-extension
hook, which does nothing.  Subclass overrides are modelled by quantifying
over a `hook : Attrs → Attrs` parameter in the definitions below. -/
def build_attrs_extra (attrs : Attrs) : Attrs := attrs

/-- The `BuildAttrsCompat.build_attrs` variant bound when
`new_style_build_attrs` is true: delegates to the framework's new-style
method, then routes the result through the extension hook. -/
def build_attrs_new_style (hook : Attrs → Attrs) (base_attrs : Attrs)
    (extra_attrs : Option Attrs) : Attrs :=
  hook (djangoNewBuildAttrs base_attrs extra_attrs)

/-- The `BuildAttrsCompat.build_attrs` variant bound when
`new_style_build_attrs` is false: delegates to the framework's old-style
method (widget attrs, extra attrs, keyword arguments), then routes the
result through the extension hook. -/
def build_attrs_old_style (hook : Attrs → Attrs) (selfAttrs : Attrs)
    (extra_attrs : Option Attrs) (kwargs : Attrs) : Attrs :=
  hook (djangoOldBuildAttrs selfAttrs extra_attrs kwargs)

/-- `BuildAttrsCompat.build_attrs_compat`, new-style binding: simply
delegates to `build_attrs`. -/
def build_attrs_compat_new_style (hook : Attrs → Attrs) (base_attrs : Attrs)
    (extra_attrs : Option Attrs) : Attrs :=
  build_attrs_new_style hook base_attrs extra_attrs

/-- `BuildAttrsCompat.build_attrs_compat`, old-style binding: a copy of the
base attrs, updated with the extra attrs when these are not None, routed
through the extension hook (the Django 1.11 merge re-implemented inline). -/
def build_attrs_compat_old_style (hook : Attrs → Attrs) (base_attrs : Attrs)
    (extra_attrs : Option Attrs) : Attrs :=
  let attrs := base_attrs
  let attrs := match extra_attrs with
    | some e => dictUpdate attrs e
    | Option.none => attrs
  hook attrs

/-- `MarkupInput.render`'s value unwrapping, instrumented with whether the
`raw` attribute was probed at all: the `value is not None` guard comes first,
so `None` is never probed; otherwise `value = value.raw` is attempted and an
`AttributeError` is swallowed, leaving the value unchanged. -/
def MarkupInput.unwrapProbe (value : Value) : Value × Bool :=
  match value with
  | Value.none => (Value.none, false)
  | v =>
      (match v.rawAttr with
       | some r => Value.plain r
       | Option.none => v, true)

/-- `MarkupInput.render`: unwraps the value, then delegates to the base
widget's render (passed explicitly, since `MarkupInput` is mixed into
different base widgets). -/
def MarkupInput.render (base : String → Value → Option Attrs → Html)
    (name : String) (value : Value) (attrs : Option Attrs) : Html :=
  base name (MarkupInput.unwrapProbe value).1 attrs

/-- `MarkupTextarea.render`: `MarkupInput` mixed into the framework's
text-area base widget. -/
def MarkupTextarea.render (widgetAttrs : Attrs) (name : String) (value : Value)
    (attrs : Option Attrs) : Html :=
  MarkupInput.render (textareaRender widgetAttrs) name value attrs

/-- The widget configuration record built by `MarkItUpWidget.__init__`. -/
structure MarkItUpWidget where
  attrs : Attrs
  miu_set : String
  miu_skin : String
  auto_preview : Bool
deriving DecidableEq

/-- `MarkItUpWidget.__init__`: resolves the button-set and skin paths from the
keyword arguments (falling back to the settings on None or empty string, via
Python `or`), the auto-preview flag from its keyword argument (falling back
on None only), and delegates the attrs to the text-area constructor chain. -/
def MarkItUpWidget.init (S : Settings) (attrs : Option Attrs)
    (markitup_set markitup_skin : Option String) (auto_preview : Option Bool) :
    MarkItUpWidget :=
  { miu_set := absolute_url S (pyOrStr markitup_set S.MARKITUP_SET)
  , miu_skin := absolute_url S (pyOrStr markitup_skin S.MARKITUP_SKIN)
  , auto_preview := auto_preview.getD S.MARKITUP_AUTO_PREVIEW
  , attrs := textareaInitAttrs attrs }

/-- The declarative asset bundle returned by `MarkItUpWidget._media`. -/
structure Media where
  cssScreen : List String
  js : List String
deriving DecidableEq

/-- `MarkItUpWidget._media` (exposed as the `media` property): the screen
stylesheets are the skin and button-set style.css, and the scripts are the
optional script-library URL followed by ajax_csrf.js, the editor script and
the button-set set.js. -/
def MarkItUpWidget.media (S : Settings) (W : MarkItUpWidget) : Media :=
  { cssScreen := [posixJoin W.miu_skin "style.css", posixJoin W.miu_set "style.css"]
  , js :=
      (match S.JQUERY_URL with
       | some u => [absolute_url S u]
       | Option.none => [])
      ++ [absolute_url S "markitup/ajax_csrf.js",
          absolute_url S "markitup/jquery.markitup.js",
          posixJoin W.miu_set "set.js"] }

/-- The ways `MarkItUpWidget.render` can raise: `typeError` models the
`TypeError` from passing the keyword argument `name` to the new-style
`build_attrs`, which accepts no extra keywords; `keyError` models the
`KeyError` from reading the id out of an attribute mapping lacking one. -/
inductive RenderError
  | typeError
  | keyError
deriving DecidableEq

/-- Modelled from the spec: the editor-initialization template
(markitup/editor.html, rendered by render_to_string) is not under src/.  Per
the spec the injected markup contains the computed input element identifier,
the auto-preview flag and the preview endpoint URL; it is modelled as a
script fragment embedding exactly those three values. -/
def editorHtml (textarea_id : String) (auto_preview : Bool) (preview_url : String) : String :=
  "<script>markItUp(" ++ textarea_id ++ ","
    ++ (if auto_preview then "true" else "false") ++ "," ++ preview_url ++ ")</script>"

/-- `MarkItUpWidget.render`, split into its two output fragments (the base
text-area markup and the injected editor markup).  It first obtains the base
markup from the superclass chain, then computes
`base_attrs = self.build_attrs(attrs, name=name)` — under the new-style
binding `build_attrs` takes no `name` keyword, so this raises `TypeError`;
under the old-style binding it forwards `attrs` as the extra attrs and
`name` as a keyword — then `final_attrs = build_attrs_compat(base_attrs,
attrs)`, reverses the preview route (an absent route yields the empty
string), and renders the editor template with the id from `final_attrs`. -/
def MarkItUpWidget.renderParts (newStyle : Bool) (routes : Option String)
    (hook : Attrs → Attrs) (W : MarkItUpWidget) (name : String) (value : Value)
    (attrs : Option Attrs) : Except RenderError (String × String) :=
  let html := MarkupTextarea.render W.attrs name value attrs
  if newStyle then Except.error RenderError.typeError
  else
    let base_attrs := build_attrs_old_style hook W.attrs attrs [("name", name)]
    let final_attrs := build_attrs_compat_old_style hook base_attrs attrs
    let preview_url := match routes with
      | some u => u
      | Option.none => ""
    match lookup final_attrs "id" with
    | some textarea_id =>
        Except.ok (html.content, editorHtml textarea_id W.auto_preview preview_url)
    | Option.none => Except.error RenderError.keyError

/-- `MarkItUpWidget.render`: the concatenation of the two fragments, passed
through `mark_safe`. -/
def MarkItUpWidget.render (newStyle : Bool) (routes : Option String)
    (hook : Attrs → Attrs) (W : MarkItUpWidget) (name : String) (value : Value)
    (attrs : Option Attrs) : Except RenderError Html :=
  (MarkItUpWidget.renderParts newStyle routes hook W name value attrs).map
    (fun p => { content := p.1 ++ p.2, safe := true })

/-- `AdminMarkItUpWidget.__init__` (inherited, `pass` body): by the method
resolution order, `MarkItUpWidget.__init__` runs and its superclass call
reaches the admin text-area constructor, which injects the styling class
before the text-area constructor chain. -/
def AdminMarkItUpWidget.init (S : Settings) (attrs : Option Attrs)
    (markitup_set markitup_skin : Option String) (auto_preview : Option Bool) :
    MarkItUpWidget :=
  MarkItUpWidget.init S (some (adminTextareaInitAttrs attrs)) markitup_set markitup_skin auto_preview

/-- `AdminMarkItUpWidget.render` is inherited unchanged from
`MarkItUpWidget` (the subclass body is `pass`). -/
def AdminMarkItUpWidget.renderParts := MarkItUpWidget.renderParts

def AdminMarkItUpWidget.render := MarkItUpWidget.render

/-- A concrete settings record for evaluating the definitions. -/
def S0 : Settings :=
  { STATIC_URL := "/static/"
  , MARKITUP_SET := "markitup/sets/default"
  , MARKITUP_SKIN := "markitup/skins/simple"
  , MARKITUP_AUTO_PREVIEW := false
  , JQUERY_URL := some "markitup/jquery.min.js" }

/-- A concrete settings record with no script-library URL configured. -/
def S1 : Settings :=
  { STATIC_URL := "/static/"
  , MARKITUP_SET := "markitup/sets/default"
  , MARKITUP_SKIN := "markitup/skins/simple"
  , MARKITUP_AUTO_PREVIEW := false
  , JQUERY_URL := Option.none }

/-- A concrete widget built with all-default constructor arguments. -/
def W0 : MarkItUpWidget :=
  MarkItUpWidget.init S0 Option.none Option.none Option.none Option.none

/-- Two attribute mappings agree everywhere except possibly at key `c`. -/
def AgreeOff (c : String) (a b : Attrs) : Prop :=
  ∀ k, k ≠ c → lookup a k = lookup b k

theorem agreeOff_dictUpdate_left {c : String} {a a' : Attrs}
    (h : AgreeOff c a a') (b : Attrs) :
    AgreeOff c (dictUpdate a b) (dictUpdate a' b) := by
  intro k hk
  rw [lookup_dictUpdate, lookup_dictUpdate, h k hk]

theorem agreeOff_djangoOld {c : String} {w w' : Attrs} (h : AgreeOff c w w')
    (extra : Option Attrs) (kwargs : Attrs) :
    AgreeOff c (djangoOldBuildAttrs w extra kwargs) (djangoOldBuildAttrs w' extra kwargs) := by
  unfold djangoOldBuildAttrs
  cases extra with
  | none => exact agreeOff_dictUpdate_left h kwargs
  | some e =>
      by_cases he : e = []
      · simpa [he] using agreeOff_dictUpdate_left h kwargs
      · simpa [he] using agreeOff_dictUpdate_left (agreeOff_dictUpdate_left h kwargs) e

theorem agreeOff_compat_old {c : String} {a a' : Attrs} (h : AgreeOff c a a')
    (extra : Option Attrs) :
    AgreeOff c (build_attrs_compat_old_style build_attrs_extra a extra)
      (build_attrs_compat_old_style build_attrs_extra a' extra) := by
  unfold build_attrs_compat_old_style build_attrs_extra
  cases extra with
  | none => exact h
  | some e => exact agreeOff_dictUpdate_left h e

/-- The widget attrs produced through the admin constructor chain agree with
the plain constructor chain everywhere except at the styling key. -/
theorem agreeOff_admin_attrs (attrs0 : Option Attrs) :
    AgreeOff "class" (textareaInitAttrs (some (adminTextareaInitAttrs attrs0)))
      (textareaInitAttrs attrs0) := by
  intro k hk
  have hclass : lookup [("class", "vLargeTextField")] k = Option.none := by
    simp [lookup, Ne.symm hk]
  cases attrs0 with
  | none =>
      simp [textareaInitAttrs, adminTextareaInitAttrs, dictUpdate,
        lookup_append, lookup, Ne.symm hk]
  | some a =>
      by_cases ha : a = []
      · simp [textareaInitAttrs, adminTextareaInitAttrs, dictUpdate, ha,
          lookup_append, lookup, Ne.symm hk]
      · have hne : a ++ [("class", "vLargeTextField")] ≠ [] := by
          simp
        simp only [textareaInitAttrs, adminTextareaInitAttrs, dictUpdate,
          Option.getD, if_neg ha, if_neg hne]
        rw [List.append_assoc]
        rw [lookup_append, lookup_append, lookup_append]
        cases h1 : lookup a k with
        | some v => rfl
        | none => simp [hclass]

/-- The editor-markup fragment and the render outcome of `renderParts` are
unchanged between two widgets whose attrs agree off the styling key and whose
auto-preview flags agree: only the base text-area fragment can differ. -/
theorem renderParts_snd_agreeOff {A W : MarkItUpWidget}
    (h : AgreeOff "class" A.attrs W.attrs) (hap : A.auto_preview = W.auto_preview)
    (newStyle : Bool) (routes : Option String) (name : String) (value : Value)
    (attrs : Option Attrs) :
    (MarkItUpWidget.renderParts newStyle routes build_attrs_extra A name value attrs).map Prod.snd =
      (MarkItUpWidget.renderParts newStyle routes build_attrs_extra W name value attrs).map Prod.snd := by
  cases newStyle with
  | true => rfl
  | false =>
      have hfinal : AgreeOff "class"
          (build_attrs_compat_old_style build_attrs_extra
            (build_attrs_old_style build_attrs_extra A.attrs attrs [("name", name)]) attrs)
          (build_attrs_compat_old_style build_attrs_extra
            (build_attrs_old_style build_attrs_extra W.attrs attrs [("name", name)]) attrs) :=
        agreeOff_compat_old (agreeOff_djangoOld h attrs [("name", name)]) attrs
      have hid := hfinal "id" (by decide)
      cases hW : lookup (build_attrs_compat_old_style build_attrs_extra
          (build_attrs_old_style build_attrs_extra W.attrs attrs [("name", name)]) attrs) "id" with
      | none =>
          have hA := hid.trans hW
          simp [MarkItUpWidget.renderParts, hA, hW]
      | some tid =>
          have hA := hid.trans hW
          simp [MarkItUpWidget.renderParts, hA, hW, hap, Except.map]

/-- A marker-adding override of the attribute-extension hook, used to state
that both `build_attrs` variants funnel their result through the hook. -/
def markerHook (attrs : Attrs) : Attrs :=
  dictUpdate attrs [("data-marker", "present")]

/-- C1: the claim says `MarkItUpWidget.render` always returns the base
text-area rendering followed by editor-initialization markup, marked safe.
The code contradicts this on the new-style `build_attrs` branch: `render`
passes the keyword argument `name` to `build_attrs`, whose new-style binding
accepts no extra keyword, so every render call raises `TypeError` there.  On
the old-style branch (second conjunct) the claimed output is produced. -/
theorem c1_render_contract_new_style_bug :
    MarkItUpWidget.render true (some "/markitup/preview/") build_attrs_extra W0
        "content" (Value.plain "hello") (some [("id", "id_content")]) =
      Except.error RenderError.typeError ∧
    MarkItUpWidget.render false (some "/markitup/preview/") build_attrs_extra W0
        "content" (Value.plain "hello") (some [("id", "id_content")]) =
      Except.ok (Html.mk
        ((textareaRender W0.attrs "content" (Value.plain "hello")
            (some [("id", "id_content")])).content
          ++ editorHtml "id_content" false "/markitup/preview/") true) :=
  ⟨rfl, rfl⟩

/-- C2: `MarkupInput.render` substitutes the raw value of a markup wrapper
before delegating to the base render; a value whose raw access raises
`AttributeError` is delegated unchanged, with no error. -/
theorem c2_markupinput_unwraps_raw (base : String → Value → Option Attrs → Html)
    (name : String) (attrs : Option Attrs) (r d s : String) :
    MarkupInput.render base name (Value.markup r d) attrs = base name (Value.plain r) attrs ∧
    (Value.plain s).rawAttr = Option.none ∧
    MarkupInput.render base name (Value.plain s) attrs = base name (Value.plain s) attrs ∧
    MarkupInput.render base name Value.none attrs = base name Value.none attrs :=
  ⟨rfl, rfl, rfl, rfl⟩

/-- C3: the claim says a failed preview-route resolution embeds the empty
string and render still returns normally.  On the new-style branch the code
raises `TypeError` before route resolution is even attempted, so render does
not return normally (first conjunct); on the old-style branch the empty
string is embedded and render succeeds as claimed (second conjunct). -/
theorem c3_reverse_failure_new_style_bug :
    MarkItUpWidget.render true Option.none build_attrs_extra W0
        "content" (Value.plain "hello") (some [("id", "id_content")]) =
      Except.error RenderError.typeError ∧
    MarkItUpWidget.render false Option.none build_attrs_extra W0
        "content" (Value.plain "hello") (some [("id", "id_content")]) =
      Except.ok (Html.mk
        ((textareaRender W0.attrs "content" (Value.plain "hello")
            (some [("id", "id_content")])).content
          ++ editorHtml "id_content" false "") true) :=
  ⟨rfl, rfl⟩

/-- C4 counterexample: supplying the button-set path as the empty string does
not take precedence over the setting — Python `or` treats it as falsy, so the
widget resolves the settings value instead of the supplied one. -/
theorem c4_override_counterexample :
    (MarkItUpWidget.init S0 Option.none (some "") Option.none Option.none).miu_set =
      absolute_url S0 S0.MARKITUP_SET ∧
    (MarkItUpWidget.init S0 Option.none (some "") Option.none Option.none).miu_set ≠
      absolute_url S0 "" := by
  exact ⟨rfl, by decide⟩

/-- C4 amended: the button-set path, skin path and auto-preview flag each
default to their process-wide setting and are overridable per instance by the
same-named constructor keyword argument, where a supplied non-empty path and
a supplied non-None auto-preview flag take precedence (an empty-string path
falls back to the setting, and the script-library URL has no constructor
argument at all). -/
theorem c4_constructor_overrides (S : Settings) (attrs : Option Attrs)
    (mset mskin : Option String) (ap : Option Bool) (s k : String) (b : Bool)
    (hs : s ≠ "") (hk : k ≠ "") :
    (MarkItUpWidget.init S attrs (some s) mskin ap).miu_set = absolute_url S s ∧
    (MarkItUpWidget.init S attrs mset (some k) ap).miu_skin = absolute_url S k ∧
    (MarkItUpWidget.init S attrs mset mskin (some b)).auto_preview = b ∧
    (MarkItUpWidget.init S attrs Option.none mskin ap).miu_set =
      absolute_url S S.MARKITUP_SET ∧
    (MarkItUpWidget.init S attrs mset Option.none ap).miu_skin =
      absolute_url S S.MARKITUP_SKIN ∧
    (MarkItUpWidget.init S attrs mset mskin Option.none).auto_preview =
      S.MARKITUP_AUTO_PREVIEW := by
  refine ⟨?_, ?_, rfl, rfl, rfl, rfl⟩
  · simp [MarkItUpWidget.init, pyOrStr, hs]
  · simp [MarkItUpWidget.init, pyOrStr, hk]

theorem c4_constructor_overrides_witness :
    (MarkItUpWidget.init S0 Option.none (some "markitup/sets/alt") Option.none
        Option.none).miu_set = absolute_url S0 "markitup/sets/alt" ∧
    (MarkItUpWidget.init S0 Option.none Option.none (some "markitup/skins/alt")
        Option.none).miu_skin = absolute_url S0 "markitup/skins/alt" ∧
    (MarkItUpWidget.init S0 Option.none Option.none Option.none (some true)).auto_preview =
      true :=
  ⟨(c4_constructor_overrides S0 Option.none Option.none Option.none Option.none
      "markitup/sets/alt" "markitup/skins/alt" true (by decide) (by decide)).1,
   (c4_constructor_overrides S0 Option.none Option.none Option.none Option.none
      "markitup/sets/alt" "markitup/skins/alt" true (by decide) (by decide)).2.1,
   (c4_constructor_overrides S0 Option.none Option.none Option.none Option.none
      "markitup/sets/alt" "markitup/skins/alt" true (by decide) (by decide)).2.2.1⟩

/-- C5: for every configuration, the media stylesheet list is exactly the
skin style.css followed by the button-set style.css (two entries), and the
script list contains the editor script and the button-set set.js. -/
theorem c5_media_lists (S : Settings) (attrs : Option Attrs)
    (mset mskin : Option String) (ap : Option Bool) :
    (MarkItUpWidget.media S (MarkItUpWidget.init S attrs mset mskin ap)).cssScreen =
      [posixJoin (MarkItUpWidget.init S attrs mset mskin ap).miu_skin "style.css",
       posixJoin (MarkItUpWidget.init S attrs mset mskin ap).miu_set "style.css"] ∧
    (MarkItUpWidget.media S (MarkItUpWidget.init S attrs mset mskin ap)).cssScreen.length = 2 ∧
    absolute_url S "markitup/jquery.markitup.js" ∈
      (MarkItUpWidget.media S (MarkItUpWidget.init S attrs mset mskin ap)).js ∧
    posixJoin (MarkItUpWidget.init S attrs mset mskin ap).miu_set "set.js" ∈
      (MarkItUpWidget.media S (MarkItUpWidget.init S attrs mset mskin ap)).js := by
  refine ⟨rfl, rfl, ?_, ?_⟩ <;>
    cases h : S.JQUERY_URL <;> simp [MarkItUpWidget.media, h]

/-- C6: the default attribute-extension hook is the identity, both
`build_attrs` signature variants route their merged mapping through the hook
before returning, and an override adding a marker attribute makes the marker
appear in the result of either variant. -/
theorem c6_build_attrs_hook (hook : Attrs → Attrs)
    (a base_attrs selfAttrs kwargs : Attrs) (extra : Option Attrs) :
    build_attrs_extra a = a ∧
    build_attrs_new_style hook base_attrs extra =
      hook (djangoNewBuildAttrs base_attrs extra) ∧
    build_attrs_old_style hook selfAttrs extra kwargs =
      hook (djangoOldBuildAttrs selfAttrs extra kwargs) ∧
    lookup (build_attrs_new_style markerHook base_attrs extra) "data-marker" =
      some "present" ∧
    lookup (build_attrs_old_style markerHook selfAttrs extra kwargs) "data-marker" =
      some "present" := by
  refine ⟨rfl, rfl, rfl, ?_, ?_⟩ <;>
    simp [build_attrs_new_style, build_attrs_old_style, markerHook,
      lookup_dictUpdate, lookup]

/-- C7: `build_attrs_compat` exposes the same (base attrs, optional extra
attrs) signature under both framework versions: the new-style binding
delegates to `build_attrs`, the old-style binding applies the hook to a copy
of the base mapping updated with the extra mapping when one is given (the
copy alone otherwise), and the two bindings return the same result. -/
theorem c7_build_attrs_compat (hook : Attrs → Attrs) (base_attrs : Attrs)
    (extra : Option Attrs) :
    build_attrs_compat_new_style hook base_attrs extra =
      build_attrs_new_style hook base_attrs extra ∧
    build_attrs_compat_old_style hook base_attrs extra =
      hook (match extra with
            | some e => dictUpdate base_attrs e
            | Option.none => base_attrs) ∧
    build_attrs_compat_new_style hook base_attrs extra =
      build_attrs_compat_old_style hook base_attrs extra := by
  refine ⟨rfl, rfl, ?_⟩
  cases extra <;> rfl

/-- C8: for every input, the admin variant produces exactly the same
editor-initialization fragment (and the same render outcome) as the base
widget, and the attribute mapping of its text-area fragment agrees with the
base widget's everywhere except at the styling key class. -/
theorem c8_admin_variant (newStyle : Bool) (routes : Option String) (S : Settings)
    (attrs0 attrs : Option Attrs) (mset mskin : Option String) (ap : Option Bool)
    (name : String) (value : Value) :
    (AdminMarkItUpWidget.renderParts newStyle routes build_attrs_extra
        (AdminMarkItUpWidget.init S attrs0 mset mskin ap) name value attrs).map Prod.snd =
      (MarkItUpWidget.renderParts newStyle routes build_attrs_extra
        (MarkItUpWidget.init S attrs0 mset mskin ap) name value attrs).map Prod.snd ∧
    ∀ k, k ≠ "class" →
      lookup (mergedTextareaAttrs
          (AdminMarkItUpWidget.init S attrs0 mset mskin ap).attrs name attrs) k =
        lookup (mergedTextareaAttrs
          (MarkItUpWidget.init S attrs0 mset mskin ap).attrs name attrs) k := by
  have hAgree : AgreeOff "class" (AdminMarkItUpWidget.init S attrs0 mset mskin ap).attrs
      (MarkItUpWidget.init S attrs0 mset mskin ap).attrs :=
    agreeOff_admin_attrs attrs0
  constructor
  · exact renderParts_snd_agreeOff hAgree rfl newStyle routes name value attrs
  · intro k hk
    exact agreeOff_dictUpdate_left (agreeOff_dictUpdate_left hAgree _) _ k hk

theorem c8_admin_variant_witness :
    (AdminMarkItUpWidget.renderParts false (some "/markitup/preview/") build_attrs_extra
        (AdminMarkItUpWidget.init S0 (some [("rows", "5")]) Option.none Option.none
          Option.none) "body" (Value.plain "x") (some [("id", "id_body")])).map Prod.snd =
      (MarkItUpWidget.renderParts false (some "/markitup/preview/") build_attrs_extra
        (MarkItUpWidget.init S0 (some [("rows", "5")]) Option.none Option.none
          Option.none) "body" (Value.plain "x") (some [("id", "id_body")])).map Prod.snd ∧
    lookup (mergedTextareaAttrs
        (AdminMarkItUpWidget.init S0 (some [("rows", "5")]) Option.none Option.none
          Option.none).attrs "body" (some [("id", "id_body")])) "rows" =
      lookup (mergedTextareaAttrs
        (MarkItUpWidget.init S0 (some [("rows", "5")]) Option.none Option.none
          Option.none).attrs "body" (some [("id", "id_body")])) "rows" :=
  ⟨(c8_admin_variant false (some "/markitup/preview/") S0 (some [("rows", "5")])
      (some [("id", "id_body")]) Option.none Option.none Option.none "body"
      (Value.plain "x")).1,
   (c8_admin_variant false (some "/markitup/preview/") S0 (some [("rows", "5")])
      (some [("id", "id_body")]) Option.none Option.none Option.none "body"
      (Value.plain "x")).2 "rows" (by decide)⟩

/-- C9: a `None` value short-circuits the `value is not None` guard, so the
raw-attribute probe never happens (unlike for every non-None value, which is
probed), and `None` is delegated unchanged to the base render. -/
theorem c9_none_value_not_probed (base : String → Value → Option Attrs → Html)
    (name : String) (attrs : Option Attrs) :
    (MarkupInput.unwrapProbe Value.none).2 = false ∧
    (∀ s, (MarkupInput.unwrapProbe (Value.plain s)).2 = true) ∧
    (∀ r d, (MarkupInput.unwrapProbe (Value.markup r d)).2 = true) ∧
    MarkupInput.render base name Value.none attrs = base name Value.none attrs :=
  ⟨rfl, fun _ => rfl, fun _ _ => rfl, rfl⟩

/-- C10: with no script-library URL configured the media script list is
exactly ajax_csrf.js, the editor script, then the button-set set.js; with one
configured it is the script-library URL followed by those three, in order. -/
theorem c10_media_js_order (S : Settings) (attrs : Option Attrs)
    (mset mskin : Option String) (ap : Option Bool) :
    (S.JQUERY_URL = Option.none →
      (MarkItUpWidget.media S (MarkItUpWidget.init S attrs mset mskin ap)).js =
        [absolute_url S "markitup/ajax_csrf.js",
         absolute_url S "markitup/jquery.markitup.js",
         posixJoin (MarkItUpWidget.init S attrs mset mskin ap).miu_set "set.js"]) ∧
    (∀ u, S.JQUERY_URL = some u →
      (MarkItUpWidget.media S (MarkItUpWidget.init S attrs mset mskin ap)).js =
        [absolute_url S u,
         absolute_url S "markitup/ajax_csrf.js",
         absolute_url S "markitup/jquery.markitup.js",
         posixJoin (MarkItUpWidget.init S attrs mset mskin ap).miu_set "set.js"]) := by
  constructor
  · intro h
    simp [MarkItUpWidget.media, h]
  · intro u h
    simp [MarkItUpWidget.media, h]

theorem c10_media_js_order_witness :
    (MarkItUpWidget.media S1
        (MarkItUpWidget.init S1 Option.none Option.none Option.none Option.none)).js =
      [absolute_url S1 "markitup/ajax_csrf.js",
       absolute_url S1 "markitup/jquery.markitup.js",
       posixJoin (MarkItUpWidget.init S1 Option.none Option.none Option.none
          Option.none).miu_set "set.js"] ∧
    (MarkItUpWidget.media S0
        (MarkItUpWidget.init S0 Option.none Option.none Option.none Option.none)).js =
      [absolute_url S0 "markitup/jquery.min.js",
       absolute_url S0 "markitup/ajax_csrf.js",
       absolute_url S0 "markitup/jquery.markitup.js",
       posixJoin (MarkItUpWidget.init S0 Option.none Option.none Option.none
          Option.none).miu_set "set.js"] :=
  ⟨(c10_media_js_order S1 Option.none Option.none Option.none Option.none).1 rfl,
   (c10_media_js_order S0 Option.none Option.none Option.none Option.none).2
     "markitup/jquery.min.js" rfl⟩
